import Mathlib

/-!
# Verification of the gamegroup authentication core

Shallow embedding of the magic-link / JWT authentication flow of the
`gamegroup` repository (backend/auth_utils.py, backend/db_utils.py,
backend/auth_dependencies.py, backend/main.py), together with theorems
settling the spec's claims about it.

Conventions of the embedding:
* times are natural numbers (seconds); `now` is passed explicitly where the
  Python code calls `datetime.now()` / `datetime.utcnow()`;
* the auth_links table is an association list from token strings to records
  (the `token` column is UNIQUE, and every operation filters `WHERE token = %s`);
* the users table is a list of user records looked up by email;
* Python dictionaries with string keys are association lists with Python's
  insert-or-overwrite assignment semantics;
* `jwt.encode` is modelled abstractly: the encoded credential carries its
  payload and the secret it was signed with; `jwt.decode` succeeds exactly
  when the verifier's secret matches and the `exp` claim (when it is a
  timestamp) has not elapsed, which is the standard symmetric-MAC abstraction.
-/

namespace Gamegroup

/-- A row of the `auth_links` table (db_utils.py, `create_auth_links_table`):
email, expiry, used flag and nullable used-at timestamp. -/
structure TokenRecord where
  email : String
  expires_at : Nat
  used : Bool
  used_at : Option Nat
deriving Repr, DecidableEq

/-- The `auth_links` table keyed by the UNIQUE `token` column. -/
abbrev TokenStore := List (String × TokenRecord)

/-- A row of the `users` table (db_utils.py, `create_users_table`); the
`authorizations` column is nullable TEXT. -/
structure UserRecord where
  username : String
  email : String
  authorizations : Option String
deriving Repr, DecidableEq

/-- The `users` table (email is UNIQUE and is the lookup key used here). -/
abbrev UserStore := List UserRecord

/-- `DatabaseService.get_auth_token`: `SELECT email, expires_at, used FROM
auth_links WHERE token = %s`, returning the row or `None`. -/
def get_auth_token (store : TokenStore) (token : String) : Option TokenRecord :=
  (store.find? (fun p => p.1 == token)).map Prod.snd

/-- `DatabaseService.mark_token_as_used`: `UPDATE auth_links SET used = TRUE,
used_at = CURRENT_TIMESTAMP WHERE token = %s` — an unconditional single-row
update (no `AND used = FALSE` guard). -/
def mark_token_as_used (store : TokenStore) (token : String) (now : Nat) : TokenStore :=
  store.map (fun p =>
    if p.1 == token then (p.1, { p.2 with used := true, used_at := some now }) else p)

/-- `DatabaseService.get_user_by_email`: `SELECT ... FROM users WHERE
email = %s`, returning the row (whose dictionary always contains the
`authorizations` key, possibly with a null value) or `None`. -/
def get_user_by_email (users : UserStore) (email : String) : Option UserRecord :=
  users.find? (fun u => u.email == email)

/-- Value stored under a key of a decoded JWT payload: Python mixes strings
(the subject email), datetimes (`exp`, `iat`) and booleans (role flags). -/
inductive JwtValue where
  | str (s : String)
  | time (t : Nat)
  | bool (b : Bool)
deriving Repr, DecidableEq

/-- A JWT payload: a Python dict with string keys, kept in insertion order. -/
abbrev Payload := List (String × JwtValue)

/-- Python dict assignment `d[k] = v`: overwrite in place when the key is
present, append otherwise. -/
def dictSet (d : Payload) (k : String) (v : JwtValue) : Payload :=
  if d.any (fun p => p.1 == k) then
    d.map (fun p => if p.1 == k then (k, v) else p)
  else
    d ++ [(k, v)]

/-- Python dict lookup `d.get(k)` / `d[k]`. -/
def dictGet? (d : Payload) (k : String) : Option JwtValue :=
  (d.find? (fun p => p.1 == k)).map Prod.snd

theorem dictGet?_dictSet_self (d : Payload) (k : String) (v : JwtValue) :
    dictGet? (dictSet d k v) k = some v := by
  unfold dictSet dictGet?
  by_cases h : d.any (fun p => p.1 == k)
  · simp only [h, if_true]
    induction d with
    | nil => simp at h
    | cons hd tl ih =>
      by_cases hk : hd.1 == k
      · simp [List.find?, hk]
      · simp only [List.any_cons, Bool.or_eq_true] at h
        rcases h with h | h
        · exact absurd h (by simp_all)
        · simpa [List.find?, hk] using ih h
  · simp only [h, if_false]
    induction d with
    | nil => simp [List.find?]
    | cons hd tl ih =>
      simp only [List.any_cons, Bool.or_eq_true, not_or] at h
      simp only [List.cons_append, List.find?, h.1, Bool.or_eq_true]
      simpa [List.find?, h.1] using ih h.2

theorem find?_overwrite_ne (d : Payload) (k k' : String) (v : JwtValue)
    (h : k' ≠ k) :
    List.find? (fun p => p.1 == k')
        (d.map (fun p => if p.1 == k then (k, v) else p)) =
      List.find? (fun p => p.1 == k') d := by
  induction d with
  | nil => simp
  | cons hd tl ih =>
    by_cases hk : hd.1 == k
    · have hne : (k == k') = false := by
        simp only [beq_eq_false_iff_ne, ne_eq]
        exact fun hkk => h hkk.symm
      have hne' : (hd.1 == k') = false := by
        simp only [beq_eq_false_iff_ne, ne_eq]
        intro hkk
        exact h (by rw [← hkk]; exact beq_iff_eq.mp hk)
      simp only [List.map_cons, hk, if_true, List.find?, hne, hne']
      exact ih
    · rw [Bool.not_eq_true] at hk
      simp only [List.map_cons, hk, Bool.false_eq_true, if_false, List.find?]
      cases hk' : hd.1 == k'
      · simp only []
        exact ih
      · simp

theorem find?_append_ne (d : Payload) (k k' : String) (v : JwtValue)
    (h : k' ≠ k) :
    List.find? (fun p => p.1 == k') (d ++ [(k, v)]) =
      List.find? (fun p => p.1 == k') d := by
  induction d with
  | nil =>
    have hne : (k == k') = false := by
      simp only [beq_eq_false_iff_ne, ne_eq]
      exact fun hkk => h hkk.symm
    simp [List.find?, hne]
  | cons hd tl ih =>
    simp only [List.cons_append, List.find?]
    cases hk' : hd.1 == k'
    · simp only []
      exact ih
    · simp

theorem dictGet?_dictSet_ne (d : Payload) (k k' : String) (v : JwtValue)
    (h : k' ≠ k) : dictGet? (dictSet d k v) k' = dictGet? d k' := by
  unfold dictSet dictGet?
  by_cases ha : d.any (fun p => p.1 == k)
  · rw [if_pos ha, find?_overwrite_ne d k k' v h]
  · rw [if_neg ha, find?_append_ne d k k' v h]

/-- Python's `str.split(",")` on the character list of a string: splits on
every comma and always yields at least one (possibly empty) piece, matching
`"".split(",") == ['']` and `"a,,b".split(",") == ['a','','b']`. -/
def splitCommas : List Char → List (List Char)
  | [] => [[]]
  | c :: cs =>
    let r := splitCommas cs
    if c = ',' then [] :: r
    else
      match r with
      | [] => [[c]]
      | piece :: rest => (c :: piece) :: rest

theorem splitCommas_ne_nil (cs : List Char) : splitCommas cs ≠ [] := by
  induction cs with
  | nil => simp [splitCommas]
  | cons c cs ih =>
    unfold splitCommas
    by_cases hc : c = ','
    · simp [hc]
    · simp only [hc, if_false]
      cases h : splitCommas cs with
      | nil => simp
      | cons piece rest => simp

/-- Drop leading whitespace characters from a character list. -/
def dropLeadingWs : List Char → List Char
  | [] => []
  | c :: cs => if c.isWhitespace then dropLeadingWs cs else c :: cs

/-- Python's `str.strip()`: remove whitespace from both ends. -/
def pyStrip (s : String) : String :=
  String.mk ((dropLeadingWs (dropLeadingWs s.data).reverse).reverse)

/-- `authorizations.split(",")` followed by `key.strip()` per element, as in
`AuthService.create_jwt`'s loop. -/
def authKeys (s : String) : List String :=
  (splitCommas s.data).map (fun cs => pyStrip (String.mk cs))

theorem authKeys_ne_nil (s : String) : authKeys s ≠ [] := by
  unfold authKeys
  intro h
  exact splitCommas_ne_nil s.data (List.map_eq_nil_iff.mp h)

/-- Errors raised by `AuthService` (`ValueError` messages of `verify_token` /
`verify_jwt`, and the `AttributeError` escaping `create_jwt` when a user row
has a null `authorizations` column and Python evaluates `None.split(",")`). -/
inductive AuthError where
  | invalidToken
  | tokenAlreadyUsed
  | tokenExpired
  | attributeError
deriving Repr, DecidableEq

/-- An encoded JWT as produced by `jwt.encode(payload, secret, "HS256")`:
abstractly, the payload together with the signing secret (standing for the
HMAC signature, which validates exactly against the same secret). -/
structure Jwt where
  payload : Payload
  secret : String
deriving Repr, DecidableEq

/-- The base claim set built by `AuthService.create_jwt` before role flags are
added: subject email, `exp = now + hours`, `iat = now` (times in seconds, so
`expires_in_hours` contributes `hours * 3600`). -/
def basePayload (email : String) (now : Nat) (expires_in_hours : Nat) : Payload :=
  [("email", JwtValue.str email),
   ("exp", JwtValue.time (now + expires_in_hours * 3600)),
   ("iat", JwtValue.time now)]

/-- `AuthService.create_jwt`: looks the user up by email, builds the base
claim set, then — since the row dictionary always contains the
`authorizations` key — iterates `payload[key.strip()] = True` over
`authorizations.split(",")`; when the stored value is null this is
`None.split(",")`, an `AttributeError`. -/
def create_jwt (users : UserStore) (secret : String) (email : String)
    (now : Nat) (expires_in_hours : Nat) : Except AuthError Jwt :=
  match get_user_by_email users email with
  | none => Except.ok ⟨basePayload email now expires_in_hours, secret⟩
  | some u =>
    match u.authorizations with
    | none => Except.error AuthError.attributeError
    | some s =>
      Except.ok ⟨(authKeys s).foldl (fun d k => dictSet d k (JwtValue.bool true))
        (basePayload email now expires_in_hours), secret⟩

/-- `jwt.decode(token, secret, ["HS256"])` as used by `AuthService.verify_jwt`:
fails when the signature does not validate against `secret`, fails when the
`exp` claim is a timestamp with `exp <= now` (PyJWT's `_validate_exp` with
zero leeway), otherwise returns the payload; the two PyJWT exceptions are
mapped to the `ValueError`s of `verify_jwt`. -/
def verify_jwt (secret : String) (now : Nat) (j : Jwt) : Except AuthError Payload :=
  if j.secret ≠ secret then Except.error AuthError.invalidToken
  else
    match dictGet? j.payload "exp" with
    | some (JwtValue.time e) =>
      if e ≤ now then Except.error AuthError.tokenExpired else Except.ok j.payload
    | _ => Except.ok j.payload

/-- `AuthService.verify_token` (the Link Redeemer), with the token store
passed and returned explicitly: looks the token up, rejects absent, used and
expired tokens in that order, otherwise marks the row used and issues a JWT
for the stored email.  The returned store is the state of `auth_links` after
the call. -/
def verify_token (store : TokenStore) (users : UserStore) (secret : String)
    (now : Nat) (token : String) : Except AuthError (String × Jwt) × TokenStore :=
  match get_auth_token store token with
  | none => (Except.error AuthError.invalidToken, store)
  | some td =>
    if td.used then (Except.error AuthError.tokenAlreadyUsed, store)
    else if td.expires_at < now then (Except.error AuthError.tokenExpired, store)
    else
      match create_jwt users secret td.email now 24 with
      | Except.error e => (Except.error e, mark_token_as_used store token now)
      | Except.ok j => (Except.ok (td.email, j), mark_token_as_used store token now)

/-! ## Environment configuration

`AuthService.__init__` reads the signing secret with a default
(`os.getenv("JWT_PRIVATE_KEY", "your-secret-key-change-in-production")`),
while `AuthDependencies.__init__` reads it with no default
(`os.getenv("JWT_PRIVATE_KEY")`, i.e. `None` when unset). -/

/-- The process environment: variable name to optional value. -/
abbrev Env := String → Option String

/-- The signing secret held by `AuthService` (auth_utils.py line 19):
falls back to the hard-coded default when the variable is unset. -/
def authservice_jwt_secret (env : Env) : String :=
  (env "JWT_PRIVATE_KEY").getD "your-secret-key-change-in-production"

/-- The secret held by `AuthDependencies` (auth_dependencies.py line 11):
`None` when the variable is unset. -/
def dependencies_jwt_secret (env : Env) : Option String :=
  env "JWT_PRIVATE_KEY"

/-! ## Request authentication and role gates (auth_dependencies.py) -/

/-- The `HTTPException`s raised by `AuthDependencies`, by status and detail. -/
inductive HttpError where
  | notAuthenticated        -- 401 "Not authenticated"
  | invalidScheme           -- 401 "Invalid authentication scheme"
  | secretNotConfigured     -- 500 "JWT secret not configured"
  | tokenExpired            -- 401 "Token has expired"
  | invalidToken            -- 401 "Invalid token"
  | invalidTokenPayload     -- 401 "Invalid token payload"
  | contributorRequired     -- 403 "Contributor access required"
  | adminRequired           -- 403 "Admin access required"
deriving Repr, DecidableEq

/-- `AuthDependencies.verify_jwt_token`: 500 when no secret is configured,
then `jwt.decode` with the PyJWT exceptions mapped to 401 responses.  The
inbound credential string is modelled through `decodeStr`, which yields the
`Jwt` a string deserialises to (`none` for a malformed string). -/
def dep_verify_jwt_token (decodeStr : String → Option Jwt) (secret : Option String)
    (now : Nat) (tokenStr : String) : Except HttpError Payload :=
  match secret with
  | none => Except.error HttpError.secretNotConfigured
  | some s =>
    match decodeStr tokenStr with
    | none => Except.error HttpError.invalidToken
    | some j =>
      if j.secret ≠ s then Except.error HttpError.invalidToken
      else
        match dictGet? j.payload "exp" with
        | some (JwtValue.time e) =>
          if e ≤ now then Except.error HttpError.tokenExpired else Except.ok j.payload
        | _ => Except.ok j.payload

/-- `authorization.startswith("Bearer ")`, specialised to the literal
seven-character pattern of auth_dependencies.py. -/
def startsWithBearer (s : String) : Bool :=
  match s.data with
  | 'B' :: 'e' :: 'a' :: 'r' :: 'e' :: 'r' :: ' ' :: _ => true
  | _ => false

/-- Python's `str.replace("Bearer ", "")` on a character list: delete every
non-overlapping occurrence of the pattern, scanning left to right. -/
def stripBearerChars : List Char → List Char
  | 'B' :: 'e' :: 'a' :: 'r' :: 'e' :: 'r' :: ' ' :: rest => stripBearerChars rest
  | c :: rest => c :: stripBearerChars rest
  | [] => []

/-- `authorization.replace("Bearer ", "")` as called by `get_current_user`. -/
def stripBearer (s : String) : String :=
  String.mk (stripBearerChars s.data)

/-- `AuthDependencies.get_current_user`: 401 when the header is absent, 401
when it does not start with `"Bearer "`, then strips the scheme with
`authorization.replace("Bearer ", "")`, verifies the JWT, and finally rejects
payloads lacking the `email` key with 401 "Invalid token payload". -/
def get_current_user (decodeStr : String → Option Jwt) (secret : Option String)
    (now : Nat) (authorization : Option String) : Except HttpError Payload :=
  match authorization with
  | none => Except.error HttpError.notAuthenticated
  | some auth =>
    if ¬ startsWithBearer auth then Except.error HttpError.invalidScheme
    else
      match dep_verify_jwt_token decodeStr secret now (stripBearer auth) with
      | Except.error e => Except.error e
      | Except.ok user =>
        if (dictGet? user "email").isNone then Except.error HttpError.invalidTokenPayload
        else Except.ok user

/-- Python truthiness of a payload value, as tested by
`if not is_contributor:` after `current_user.get(key, False)`. -/
def JwtValue.truthy : JwtValue → Bool
  | JwtValue.str s => s ≠ ""
  | JwtValue.time t => t ≠ 0
  | JwtValue.bool b => b

/-- `AuthDependencies.require_contributor`: 403 unless
`current_user.get("is_contributor", False)` is truthy; on success returns the
claim set unchanged. -/
def require_contributor (current_user : Payload) : Except HttpError Payload :=
  match dictGet? current_user "is_contributor" with
  | none => Except.error HttpError.contributorRequired
  | some v =>
    if v.truthy then Except.ok current_user
    else Except.error HttpError.contributorRequired

/-- `AuthDependencies.require_admin`: 403 unless
`current_user.get("is_admin", False)` is truthy; on success returns the claim
set unchanged. -/
def require_admin (current_user : Payload) : Except HttpError Payload :=
  match dictGet? current_user "is_admin" with
  | none => Except.error HttpError.adminRequired
  | some v =>
    if v.truthy then Except.ok current_user
    else Except.error HttpError.adminRequired

/-- Python attribute dispatch for the role gates of `AuthDependencies`:
`require_gate role` is `some` of the gate's outcome for the roles whose
`require_*` method the class defines, and `none` for a role with no such
method (an `AttributeError` at the call site, as for
`_get_require_viewer_dependency` referenced by main.py's `/games` route). -/
def require_gate (role : String) (current_user : Payload) :
    Option (Except HttpError Payload) :=
  if role = "contributor" then some (require_contributor current_user)
  else if role = "admin" then some (require_admin current_user)
  else none

/-! ## Interleaving model of concurrent redemption

`verify_token` issues its database statements over separate short-lived
connections: the `SELECT` of `get_auth_token` and the `UPDATE` of
`mark_token_as_used` each open, run one statement, commit and close
(db_utils.py).  The database serialises individual statements, so a pair of
concurrent `verify_token` calls is modelled as an interleaving of per-call
atomic steps: one step for the SELECT plus the in-process checks, one step
for the UPDATE plus the subsequent JWT issuance (which touches no
`auth_links` state). -/

deriving instance DecidableEq for Except

/-- The control point of one in-flight `verify_token` call. -/
inductive RedeemProc where
  | start
  | checked (td : TokenRecord)
  | finished (r : Except AuthError Unit)
deriving Repr, DecidableEq

/-- One atomic database statement of an in-flight `verify_token` call,
returning the call's next control point and the store it leaves behind. -/
def redeemStep (users : UserStore) (secret : String) (now : Nat) (token : String)
    (store : TokenStore) : RedeemProc → RedeemProc × TokenStore
  | RedeemProc.start =>
    match get_auth_token store token with
    | none => (RedeemProc.finished (Except.error AuthError.invalidToken), store)
    | some td =>
      if td.used then
        (RedeemProc.finished (Except.error AuthError.tokenAlreadyUsed), store)
      else if td.expires_at < now then
        (RedeemProc.finished (Except.error AuthError.tokenExpired), store)
      else (RedeemProc.checked td, store)
  | RedeemProc.checked td =>
    match create_jwt users secret td.email now 24 with
    | Except.error e =>
      (RedeemProc.finished (Except.error e), mark_token_as_used store token now)
    | Except.ok _ =>
      (RedeemProc.finished (Except.ok ()), mark_token_as_used store token now)
  | RedeemProc.finished r => (RedeemProc.finished r, store)

/-- Two concurrent `verify_token` calls for the same token over a shared
store. -/
structure RaceState where
  p1 : RedeemProc
  p2 : RedeemProc
  store : TokenStore
deriving Repr, DecidableEq

/-- Let the call chosen by the scheduler take its next atomic step. -/
def raceStep (users : UserStore) (secret : String) (now : Nat) (token : String)
    (who : Bool) (s : RaceState) : RaceState :=
  if who then
    let r := redeemStep users secret now token s.store s.p1
    ⟨r.1, s.p2, r.2⟩
  else
    let r := redeemStep users secret now token s.store s.p2
    ⟨s.p1, r.1, r.2⟩

/-- Run a schedule (`true` = first call steps, `false` = second call steps). -/
def runRace (users : UserStore) (secret : String) (now : Nat) (token : String)
    (sched : List Bool) (s : RaceState) : RaceState :=
  sched.foldl (fun st who => raceStep users secret now token who st) s

/-! ## Store lemmas -/

theorem get_auth_token_mark (store : TokenStore) (token : String) (now : Nat) :
    get_auth_token (mark_token_as_used store token now) token =
      (get_auth_token store token).map
        (fun td => { td with used := true, used_at := some now }) := by
  induction store with
  | nil => simp [get_auth_token, mark_token_as_used]
  | cons hd tl ih =>
    unfold get_auth_token mark_token_as_used at *
    cases hk : hd.1 == token
    · simp only [List.map_cons, hk, Bool.false_eq_true, if_false, List.find?, hk]
      exact ih
    · simp [List.find?, hk]

/-- The only error `create_jwt` can produce is the `AttributeError` of the
null-authorizations path. -/
theorem create_jwt_error_elim (users : UserStore) (secret email : String)
    (now hrs : Nat) (e : AuthError)
    (h : create_jwt users secret email now hrs = Except.error e) :
    e = AuthError.attributeError := by
  unfold create_jwt at h
  cases hu : get_user_by_email users email with
  | none => simp only [hu] at h; simp at h
  | some u =>
    simp only [hu] at h
    cases ha : u.authorizations with
    | none =>
      simp only [ha] at h
      injection h with h
      exact h.symm
    | some s => simp only [ha] at h; simp at h

/-! ## Claims -/

/-- C1: redeeming a stored token whose used flag is true fails with
`TokenAlreadyUsed` whatever its expiry state (the used check runs before the
expiry check), and a successful redemption leaves the token marked used, so
every subsequent redemption of the same token fails with `TokenAlreadyUsed`
— redemption succeeds at most once per token. -/
theorem C1_redeem_used_token :
    (∀ (store : TokenStore) (users : UserStore) (secret : String) (now : Nat)
        (token : String) (td : TokenRecord),
        get_auth_token store token = some td → td.used = true →
        verify_token store users secret now token =
          (Except.error AuthError.tokenAlreadyUsed, store)) ∧
    (∀ (store : TokenStore) (users : UserStore) (secret : String) (now now' : Nat)
        (token : String) (r : String × Jwt) (store₁ : TokenStore),
        verify_token store users secret now token = (Except.ok r, store₁) →
        (verify_token store₁ users secret now' token).1 =
          Except.error AuthError.tokenAlreadyUsed) := by
  constructor
  · intro store users secret now token td hfound hused
    simp [verify_token, hfound, hused]
  · intro store users secret now now' token r store₁ h
    unfold verify_token at h
    cases hfound : get_auth_token store token with
    | none => simp only [hfound] at h; simp at h
    | some td =>
      simp only [hfound] at h
      by_cases hused : td.used = true
      · rw [if_pos hused] at h; simp at h
      · rw [if_neg hused] at h
        by_cases hexp : td.expires_at < now
        · rw [if_pos hexp] at h; simp at h
        · rw [if_neg hexp] at h
          cases hcj : create_jwt users secret td.email now 24 with
          | error e => simp only [hcj] at h; simp at h
          | ok j =>
            simp only [hcj] at h
            have hstore : store₁ = mark_token_as_used store token now := by
              have h2 := congrArg Prod.snd h
              simpa using h2.symm
            subst hstore
            unfold verify_token
            rw [get_auth_token_mark, hfound]
            simp

/-- C1 witness: a token that is both used and expired is rejected with
`TokenAlreadyUsed`, not `TokenExpired`, and the store is unchanged. -/
theorem C1_redeem_used_token_witness :
    verify_token [("t", ⟨"alice@example.com", 10, true, none⟩)] [] "s" 99 "t" =
      (Except.error AuthError.tokenAlreadyUsed,
       [("t", ⟨"alice@example.com", 10, true, none⟩)]) :=
  C1_redeem_used_token.1 _ _ _ _ _ ⟨"alice@example.com", 10, true, none⟩ rfl rfl

/-- C6: redeeming a stored token that is unused but whose expiry time is
before the current time fails with `TokenExpired` and leaves the store
unchanged. -/
theorem C6_redeem_expired_token (store : TokenStore) (users : UserStore)
    (secret : String) (now : Nat) (token : String) (td : TokenRecord)
    (hfound : get_auth_token store token = some td)
    (hunused : td.used = false)
    (hexp : td.expires_at < now) :
    verify_token store users secret now token =
      (Except.error AuthError.tokenExpired, store) := by
  simp [verify_token, hfound, hunused, hexp]

/-- C6 witness: an unused token with expiry 10 redeemed at time 11 yields
`TokenExpired`. -/
theorem C6_redeem_expired_token_witness :
    verify_token [("t", ⟨"alice@example.com", 10, false, none⟩)] [] "s" 11 "t" =
      (Except.error AuthError.tokenExpired,
       [("t", ⟨"alice@example.com", 10, false, none⟩)]) :=
  C6_redeem_expired_token _ _ _ _ _ ⟨"alice@example.com", 10, false, none⟩ rfl rfl
    (by decide)

/-- C9: whenever redemption fails because the token is absent
(`InvalidToken`), already used (`TokenAlreadyUsed`) or expired
(`TokenExpired`), the token store is returned unchanged — those failures
never consume the token. -/
theorem C9_failed_redemption_preserves_store (store : TokenStore)
    (users : UserStore) (secret : String) (now : Nat) (token : String)
    (e : AuthError)
    (hfail : (verify_token store users secret now token).1 = Except.error e)
    (hkind : e = AuthError.invalidToken ∨ e = AuthError.tokenAlreadyUsed ∨
      e = AuthError.tokenExpired) :
    (verify_token store users secret now token).2 = store := by
  unfold verify_token at hfail ⊢
  cases hfound : get_auth_token store token with
  | none => simp [hfound]
  | some td =>
    simp only [hfound] at hfail ⊢
    cases hused : td.used with
    | true => simp [hused]
    | false =>
      simp only [hused, Bool.false_eq_true, if_false] at hfail ⊢
      by_cases hexp : td.expires_at < now
      · simp [hexp]
      · rw [if_neg hexp] at hfail ⊢
        cases hcj : create_jwt users secret td.email now 24 with
        | ok j => simp only [hcj] at hfail; simp at hfail
        | error e' =>
          have hattr : e' = AuthError.attributeError :=
            create_jwt_error_elim _ _ _ _ _ _ hcj
          simp only [hcj] at hfail
          have he : e' = e := by
            injection hfail
          rcases hkind with hk | hk | hk <;> simp [hk, hattr] at he

/-- C9 witness: redeeming an absent token fails with `InvalidToken` and the
(empty) store is unchanged. -/
theorem C9_failed_redemption_preserves_store_witness :
    (verify_token [] [] "s" 0 "t").2 = ([] : TokenStore) :=
  C9_failed_redemption_preserves_store [] [] "s" 0 "t" AuthError.invalidToken rfl
    (Or.inl rfl)

/-- C7: role flags are independent — a claim set with `is_contributor = true`
and `is_admin` absent or false passes `require_contributor` unchanged and is
rejected by `require_admin` with the 403 Forbidden outcome. -/
theorem C7_role_flags_independent (p : Payload)
    (hc : dictGet? p "is_contributor" = some (JwtValue.bool true))
    (ha : dictGet? p "is_admin" = none ∨
      dictGet? p "is_admin" = some (JwtValue.bool false)) :
    require_contributor p = Except.ok p ∧
    require_admin p = Except.error HttpError.adminRequired := by
  constructor
  · simp [require_contributor, hc, JwtValue.truthy]
  · rcases ha with ha | ha <;> simp [require_admin, ha, JwtValue.truthy]

/-- C7 witness: a concrete claim set with only the contributor flag passes
the contributor gate and fails the admin gate. -/
theorem C7_role_flags_independent_witness :
    require_contributor
        [("email", JwtValue.str "a@b.c"), ("is_contributor", JwtValue.bool true)] =
      Except.ok
        [("email", JwtValue.str "a@b.c"), ("is_contributor", JwtValue.bool true)] ∧
    require_admin
        [("email", JwtValue.str "a@b.c"), ("is_contributor", JwtValue.bool true)] =
      Except.error HttpError.adminRequired :=
  C7_role_flags_independent _ rfl (Or.inl rfl)

/-- C2 evidence: the mark-used mutation is not conditional on the used flag,
so two interleaved redemptions of the same fresh token (read₁, read₂,
write₁, write₂) both succeed, while the same two calls run sequentially
yield one success and one `TokenAlreadyUsed` — the claimed at-most-one-success
guarantee fails on the code. -/
theorem C2_interleaved_double_redemption :
    (runRace [] "s" 0 "t" [true, false, true, false]
        ⟨RedeemProc.start, RedeemProc.start,
         [("t", ⟨"alice@example.com", 100, false, none⟩)]⟩).p1 =
      RedeemProc.finished (Except.ok ()) ∧
    (runRace [] "s" 0 "t" [true, false, true, false]
        ⟨RedeemProc.start, RedeemProc.start,
         [("t", ⟨"alice@example.com", 100, false, none⟩)]⟩).p2 =
      RedeemProc.finished (Except.ok ()) ∧
    (runRace [] "s" 0 "t" [true, true, false]
        ⟨RedeemProc.start, RedeemProc.start,
         [("t", ⟨"alice@example.com", 100, false, none⟩)]⟩).p1 =
      RedeemProc.finished (Except.ok ()) ∧
    (runRace [] "s" 0 "t" [true, true, false]
        ⟨RedeemProc.start, RedeemProc.start,
         [("t", ⟨"alice@example.com", 100, false, none⟩)]⟩).p2 =
      RedeemProc.finished (Except.error AuthError.tokenAlreadyUsed) :=
  ⟨rfl, rfl, rfl, rfl⟩

/-- C5 evidence: the role-gate dispatch of `AuthDependencies` resolves the
contributor and admin gates but has no viewer gate at all — the lookup
main.py performs for its `/games` route comes back empty (`AttributeError`),
refuting the claim that all three roles have a `require(role)` check. -/
theorem C5_viewer_gate_missing :
    require_gate "viewer"
        [("email", JwtValue.str "a@b.c"), ("is_viewer", JwtValue.bool true)] =
      none ∧
    require_gate "contributor" [("is_contributor", JwtValue.bool true)] =
      some (Except.ok [("is_contributor", JwtValue.bool true)]) ∧
    require_gate "admin" [("is_contributor", JwtValue.bool true)] =
      some (Except.error HttpError.adminRequired) :=
  ⟨rfl, rfl, rfl⟩

/-- C4 counterexample: with no `JWT_PRIVATE_KEY` in the environment,
`AuthService` holds the hard-coded fallback secret and credential issuance
succeeds — it does not fail with a configuration error. -/
theorem C4_issuance_fallback_counterexample :
    authservice_jwt_secret (fun _ => none) =
      "your-secret-key-change-in-production" ∧
    create_jwt [] (authservice_jwt_secret (fun _ => none)) "alice@example.com"
        0 24 =
      Except.ok ⟨basePayload "alice@example.com" 0 24,
        "your-secret-key-change-in-production"⟩ :=
  ⟨rfl, rfl⟩

/-- C4 amended: with no signing secret configured, credential verification
in the request authenticator fails with the 500 "JWT secret not configured"
outcome for every inbound credential, while credential issuance silently
falls back to the default secret `"your-secret-key-change-in-production"`. -/
theorem C4_missing_secret_behaviour :
    (∀ (d : String → Option Jwt) (now : Nat) (tok : String),
      dep_verify_jwt_token d (dependencies_jwt_secret (fun _ => none)) now tok =
        Except.error HttpError.secretNotConfigured) ∧
    authservice_jwt_secret (fun _ => none) =
      "your-secret-key-change-in-production" :=
  ⟨fun _ _ _ => rfl, rfl⟩

/-- C8: the request authenticator rejects an absent header and a header
without the `"Bearer "` scheme prefix with 401 outcomes, rejects a
validly-signed unexpired credential whose claim set lacks the `email` key
with the 401 "Invalid token payload" outcome, and otherwise returns the
decoded claim set. -/
theorem C8_request_authenticator (d : String → Option Jwt) (sec : String)
    (now : Nat) :
    (get_current_user d (some sec) now none =
      Except.error HttpError.notAuthenticated) ∧
    (∀ a : String, ¬ startsWithBearer a →
      get_current_user d (some sec) now (some a) =
        Except.error HttpError.invalidScheme) ∧
    (∀ (a : String) (j : Jwt) (e : Nat), startsWithBearer a →
      d (stripBearer a) = some j → j.secret = sec →
      dictGet? j.payload "exp" = some (JwtValue.time e) → now < e →
      dictGet? j.payload "email" = none →
      get_current_user d (some sec) now (some a) =
        Except.error HttpError.invalidTokenPayload) ∧
    (∀ (a : String) (j : Jwt) (e : Nat) (v : JwtValue), startsWithBearer a →
      d (stripBearer a) = some j → j.secret = sec →
      dictGet? j.payload "exp" = some (JwtValue.time e) → now < e →
      dictGet? j.payload "email" = some v →
      get_current_user d (some sec) now (some a) = Except.ok j.payload) := by
  refine ⟨rfl, ?_, ?_, ?_⟩
  · intro a h
    simp [get_current_user, h]
  · intro a j e hstart hd hsec hexp hlt hemail
    simp [get_current_user, hstart, dep_verify_jwt_token, hd, hsec, hexp,
      not_le.mpr hlt, hemail]
  · intro a j e v hstart hd hsec hexp hlt hemail
    simp [get_current_user, hstart, dep_verify_jwt_token, hd, hsec, hexp,
      not_le.mpr hlt, hemail]

/-- C8 witness: a well-formed bearer header with a validly-signed, unexpired
credential for `a@b.c` authenticates and returns the decoded claim set. -/
theorem C8_request_authenticator_witness :
    get_current_user
        (fun s => if s = "tok" then
          some ⟨[("email", JwtValue.str "a@b.c"), ("exp", JwtValue.time 10)], "sec"⟩
         else none)
        (some "sec") 3 (some "Bearer tok") =
      Except.ok [("email", JwtValue.str "a@b.c"), ("exp", JwtValue.time 10)] :=
  (C8_request_authenticator _ "sec" 3).2.2.2 "Bearer tok"
    ⟨[("email", JwtValue.str "a@b.c"), ("exp", JwtValue.time 10)], "sec"⟩ 10
    (JwtValue.str "a@b.c") rfl rfl rfl rfl (by decide) rfl

/-! ## Round-trip lemmas for credential issuance (C3, C10) -/

theorem dictGet?_foldl_sets_ne : ∀ (ks : List String) (d : Payload) (k' : String),
    (∀ k ∈ ks, k ≠ k') →
    dictGet? (ks.foldl (fun d k => dictSet d k (JwtValue.bool true)) d) k' =
      dictGet? d k'
  | [], _, _, _ => rfl
  | k :: ks, d, k', h => by
    simp only [List.foldl_cons]
    rw [dictGet?_foldl_sets_ne ks (dictSet d k (JwtValue.bool true)) k'
        (fun x hx => h x (List.mem_cons_of_mem _ hx)),
      dictGet?_dictSet_ne d k k' _ (Ne.symm (h k (List.mem_cons_self _ _)))]

theorem foldl_dictSet_cons_has_bool (k0 : String) (ks : List String) (d : Payload) :
    ∃ k, dictGet?
        ((k0 :: ks).foldl (fun d k => dictSet d k (JwtValue.bool true)) d) k =
      some (JwtValue.bool true) := by
  induction ks generalizing k0 d with
  | nil => exact ⟨k0, dictGet?_dictSet_self d k0 _⟩
  | cons k1 ks ih => exact ih k1 (dictSet d k0 (JwtValue.bool true))

theorem basePayload_no_bool (email : String) (t hrs : Nat) (k : String) :
    dictGet? (basePayload email t hrs) k ≠ some (JwtValue.bool true) := by
  intro hc
  unfold dictGet? at hc
  obtain ⟨p, hfind, hsnd⟩ := Option.map_eq_some'.mp hc
  have hmem := List.mem_of_find?_eq_some hfind
  simp only [basePayload, List.mem_cons, List.not_mem_nil, or_false] at hmem
  rcases hmem with h1 | h1 | h1 <;> (rw [h1] at hsnd; simp at hsnd)

/-- The stored authorization tokens for an email are "safe" when a user row
exists only with a non-null authorization string none of whose trimmed
comma-separated tokens collides with the reserved claim names `email`,
`exp`, `iat`. -/
def safeAuthUser (users : UserStore) (email : String) : Bool :=
  match get_user_by_email users email with
  | none => true
  | some u =>
    match u.authorizations with
    | none => false
    | some s => (authKeys s).all (fun k =>
        !(k == "email") && !(k == "exp") && !(k == "iat"))

/-- C3 counterexample: for a user whose stored authorization string is the
single token `email`, issuance succeeds and verification succeeds, but the
role-flag loop has overwritten the subject claim, so the returned claim
set's `email` is not the input email; and for a user whose stored
authorization string is null, issuance does not even produce a credential. -/
theorem C3_roundtrip_counterexample :
    (∃ j p,
      create_jwt [⟨"eve", "eve@example.com", some "email"⟩] "s"
          "eve@example.com" 0 24 = Except.ok j ∧
      verify_jwt "s" 0 j = Except.ok p ∧
      dictGet? p "email" ≠ some (JwtValue.str "eve@example.com")) ∧
    create_jwt [⟨"noauth", "noauth@example.com", none⟩] "s"
        "noauth@example.com" 0 24 = Except.error AuthError.attributeError :=
  ⟨⟨⟨[("email", JwtValue.bool true), ("exp", JwtValue.time 86400),
      ("iat", JwtValue.time 0)], "s"⟩,
    [("email", JwtValue.bool true), ("exp", JwtValue.time 86400),
     ("iat", JwtValue.time 0)],
    rfl, rfl, by decide⟩, rfl⟩

/-- C3 (amended): for every email whose user record, if present, has a
non-null authorization string free of the reserved claim names, verifying a
credential issued at time `t` at any time `t'` before the 24-hour expiry
succeeds and returns a claim set whose subject email equals the input email
and whose issued-at is at most `t'`, which is at most the expiry. -/
theorem C3_issue_verify_roundtrip (users : UserStore) (secret email : String)
    (t t' : Nat) (hle : t ≤ t') (hlt : t' < t + 24 * 3600)
    (hsafe : safeAuthUser users email = true) :
    ∃ j p, create_jwt users secret email t 24 = Except.ok j ∧
      verify_jwt secret t' j = Except.ok p ∧
      dictGet? p "email" = some (JwtValue.str email) ∧
      dictGet? p "iat" = some (JwtValue.time t) ∧
      dictGet? p "exp" = some (JwtValue.time (t + 24 * 3600)) ∧
      t ≤ t' ∧ t' ≤ t + 24 * 3600 := by
  cases hu : get_user_by_email users email with
  | none =>
    refine ⟨⟨basePayload email t 24, secret⟩, basePayload email t 24,
      ?_, ?_, rfl, rfl, rfl, hle, hlt.le⟩
    · simp [create_jwt, hu]
    · have hexp : dictGet? (basePayload email t 24) "exp" =
          some (JwtValue.time (t + 24 * 3600)) := rfl
      simp [verify_jwt, hexp, not_le.mpr hlt]
  | some u =>
    cases ha : u.authorizations with
    | none => exact absurd hsafe (by simp [safeAuthUser, hu, ha])
    | some s =>
      have hkeys : ∀ k ∈ authKeys s, k ≠ "email" ∧ k ≠ "exp" ∧ k ≠ "iat" := by
        have hall := hsafe
        unfold safeAuthUser at hall
        simp only [hu, ha] at hall
        intro k hk
        have := List.all_eq_true.mp hall k hk
        simp only [Bool.and_eq_true, Bool.not_eq_true', beq_eq_false_iff_ne] at this
        exact ⟨this.1.1, this.1.2, this.2⟩
      refine ⟨⟨(authKeys s).foldl (fun d k => dictSet d k (JwtValue.bool true))
          (basePayload email t 24), secret⟩,
        (authKeys s).foldl (fun d k => dictSet d k (JwtValue.bool true))
          (basePayload email t 24), ?_, ?_, ?_, ?_, ?_, hle, hlt.le⟩
      · simp [create_jwt, hu, ha]
      · have hexp : dictGet? ((authKeys s).foldl
            (fun d k => dictSet d k (JwtValue.bool true)) (basePayload email t 24))
            "exp" = some (JwtValue.time (t + 24 * 3600)) := by
          rw [dictGet?_foldl_sets_ne _ _ _ (fun k hk => (hkeys k hk).2.1)]
          rfl
        simp [verify_jwt, hexp, not_le.mpr hlt]
      · rw [dictGet?_foldl_sets_ne _ _ _ (fun k hk => (hkeys k hk).1)]
        rfl
      · rw [dictGet?_foldl_sets_ne _ _ _ (fun k hk => (hkeys k hk).2.2)]
        rfl
      · rw [dictGet?_foldl_sets_ne _ _ _ (fun k hk => (hkeys k hk).2.1)]
        rfl

/-- C3 witness: the repository's own seeded user (authorizations
`is_contributor,is_admin,is_viewer`) round-trips: issue at time 0, verify at
time 100. -/
theorem C3_issue_verify_roundtrip_witness :
    ∃ j p,
      create_jwt
          [⟨"lesh", "marklesh@yahoo.com", some "is_contributor,is_admin,is_viewer"⟩]
          "s" "marklesh@yahoo.com" 0 24 = Except.ok j ∧
      verify_jwt "s" 100 j = Except.ok p ∧
      dictGet? p "email" = some (JwtValue.str "marklesh@yahoo.com") ∧
      dictGet? p "iat" = some (JwtValue.time 0) ∧
      dictGet? p "exp" = some (JwtValue.time (0 + 24 * 3600)) ∧
      0 ≤ 100 ∧ 100 ≤ 0 + 24 * 3600 :=
  C3_issue_verify_roundtrip _ "s" _ 0 100 (by decide) (by decide) (by decide)

/-- C10: when a user record exists with a null authorization string,
credential issuance for that email fails (the `AttributeError` of
`None.split`), and a credential whose claim set is exactly the base claim
set — no role flags at all — can only have been issued when no user record
exists for the email. -/
theorem C10_null_authorizations :
    (∀ (users : UserStore) (secret email : String) (t : Nat) (u : UserRecord),
      get_user_by_email users email = some u → u.authorizations = none →
      create_jwt users secret email t 24 =
        Except.error AuthError.attributeError) ∧
    (∀ (users : UserStore) (secret email : String) (t : Nat) (j : Jwt),
      create_jwt users secret email t 24 = Except.ok j →
      j.payload = basePayload email t 24 →
      get_user_by_email users email = none) := by
  constructor
  · intro users secret email t u hu ha
    simp [create_jwt, hu, ha]
  · intro users secret email t j hok hbase
    cases hu : get_user_by_email users email with
    | none => rfl
    | some u =>
      exfalso
      cases ha : u.authorizations with
      | none => simp [create_jwt, hu, ha] at hok
      | some s =>
        simp only [create_jwt, hu, ha] at hok
        have hpay : j.payload = (authKeys s).foldl
            (fun d k => dictSet d k (JwtValue.bool true))
            (basePayload email t 24) := by
          injection hok with hok
          exact congrArg Jwt.payload hok.symm
        obtain ⟨k0, ks, hcons⟩ :=
          List.exists_cons_of_ne_nil (authKeys_ne_nil s)
        rw [hcons] at hpay
        obtain ⟨k, hk⟩ := foldl_dictSet_cons_has_bool k0 ks (basePayload email t 24)
        rw [← hpay, hbase] at hk
        exact basePayload_no_bool email t 24 k hk

/-- C10 witness: a stored user with null authorizations makes issuance fail
with the `AttributeError`. -/
theorem C10_null_authorizations_witness :
    create_jwt [⟨"bob", "bob@example.com", none⟩] "s" "bob@example.com" 7 24 =
      Except.error AuthError.attributeError :=
  C10_null_authorizations.1 _ "s" _ 7 ⟨"bob", "bob@example.com", none⟩ rfl rfl

end Gamegroup
